import Mathlib

/-!
Shallow embedding of the attendance submission, reconciliation and
aggregation logic of the qr-attendance-backend repository.

The attendance controller (src/unnamed/part_000) is embedded as pure
functions over an explicit record store (a `List AttendanceRecord`),
with the external collaborators (user directory, face comparison,
base64 image decoding, persistence success) gathered in an `Env`
record.  Mongo queries (`findOne`, `countDocuments`, `distinct`,
aggregation pipelines) become list combinators over the store.
-/

/-- Geographic coordinates carried by a submission
(`studentCoordinates` in the controller). -/
structure Coordinates where
  latitude : ℚ
  longitude : ℚ
deriving DecidableEq, Repr

/-- A value stored in the `sessionId` field of an attendance document.
`submitAttendance` stores the internal ObjectId of the matched
`QRCodeSession` document (`qrSession._id`), while `syncAttendance`
stores the raw session identifier carried by the offline claim.  In
the store these live in the same field but are distinct values (a
Mongo equality query with a string never matches an ObjectId), which
the two constructors capture. -/
inductive SessionVal where
  | oid (id : Nat)
  | raw (s : String)
deriving DecidableEq, Repr

/-- Modelled from the spec: `attendanceModel.js` is not among the
sources; per the spec's data model the `status` field of an attendance
document defaults to `present` when the creating code does not set it
(as in `submitAttendance`, where the assignment is commented out). -/
def defaultStatus : String := "present"

/-- Modelled from the spec: `attendanceModel.js` is not among the
sources; per the spec's data model the `synced` flag is true exactly
for records created via batch reconciliation, so its schema default is
`false` (only `syncAttendance` sets it). -/
def defaultSynced : Bool := false

/-- Modelled from the spec: `attendanceModel.js` is not among the
sources; `livenessPassed` is a plain boolean field, taken to default
to `false` when the creating code does not set it (manual entry). -/
def defaultLiveness : Bool := false

/-- One persisted attendance document (the `Attendance` model). -/
structure AttendanceRecord where
  studentId : String
  classId : String
  sessionId : Option SessionVal
  scheduleId : Option String
  status : String
  studentCoordinates : Option Coordinates
  livenessPassed : Bool
  faceEmbedding : Option (List Int)
  timestamp : Nat
  manualEntry : Bool
  markedBy : Option String
  synced : Bool
  notes : Option String
deriving DecidableEq, Repr

/-- One document of the `QRCodeSession` collection: a live, time-boxed
attendance window.  `_id` is the internal ObjectId, `sessionId` the
raw token string shown in the QR code. -/
structure QRCodeSession where
  _id : Nat
  sessionId : String
  classId : String
  scheduleId : Option String
  isActive : Bool
  sessionExpiresAt : Nat
deriving DecidableEq, Repr

/-- The fields of a `User` document that the attendance logic reads. -/
structure User where
  fullName : String
  enrollmentNo : Option String
  faceImageS3Key : Option String
deriving DecidableEq, Repr

/-- A `ClassEnrollment` document: (studentId, classId) membership. -/
structure Enrollment where
  studentId : String
  classId : String
deriving DecidableEq, Repr

/-- External collaborators of the attendance controller.
`users` embeds `User.findById`; `qrSessions` the `QRCodeSession`
collection; `now` the value of `new Date()` during the request;
`decodeLen` the byte length of the base64-decoded image buffer
(`Buffer.from(base64Data, 'base64').length`); `save` the outcome of
`document.save()` (`Except.error m` is a thrown error with message
`m`).  `compareFaces` is modelled from the spec: `rekognitionService.js`
is not among the sources, so the adapter is abstracted as either
resolving to a match boolean (`Except.ok`) or throwing with a message
(`Except.error`) — per the spec a transient `VerificationUnavailable`
failure is a distinct thrown signal, never a non-match result. -/
structure Env where
  users : String → Option User
  decodeLen : String → Nat
  compareFaces : String → String → Except String Bool
  qrSessions : List QRCodeSession
  save : AttendanceRecord → Except String Unit
  now : Nat

/-- The request body of `submitAttendance`.  Fields are optional since
a JS client may omit any of them. -/
structure SubmitBody where
  sessionId : Option String
  classId : Option String
  studentCoordinates : Option Coordinates
  livenessPassed : Option Bool
  faceImage : Option String
deriving Repr

/-- JS falsiness of an optional string: absent (`undefined`/`null`) or
empty. -/
def falsyS : Option String → Bool
  | none => true
  | some s => s == ""

/-- The guard of step 1 of `submitAttendance`:
`!sessionId || !classId || !studentCoordinates || !faceImage`. -/
def missingFields (b : SubmitBody) : Bool :=
  falsyS b.sessionId || falsyS b.classId || b.studentCoordinates.isNone || falsyS b.faceImage

/-- Whether `pat` occurs as a substring of `hay`
(JS `hay.includes(pat)`), expressed over the character lists. -/
def strIncludes (hay pat : String) : Bool :=
  decide (pat.toList <:+: hay.toList)

/-- An HTTP response of the single-submission and manual-creation
handlers: status code, message, and the attendance document echoed on
success. -/
structure ApiResponse where
  status : Nat
  message : String
  attendance : Option AttendanceRecord
deriving DecidableEq, Repr

/-- The catch block of `submitAttendance`: a thrown error whose message
contains the face-verification marker is surfaced as 401, anything
else as 500 (with a fallback message when the error message is
falsy). -/
def catchResponse (m : String) : ApiResponse :=
  if strIncludes m "Face could not be verified" then
    { status := 401, message := m, attendance := none }
  else
    { status := 500
      message := if m = "" then "An unexpected server error occurred." else m
      attendance := none }

/-- The document constructed in step 5 of `submitAttendance`.  The
`sessionId` field holds the matched QR session's ObjectId, not the raw
submitted token; `status` and `synced` are left to their schema
defaults (`status: 'present'` is commented out in the source). -/
def mkSubmitRecord (studentId : String) (qr : QRCodeSession) (b : SubmitBody) (now : Nat) :
    AttendanceRecord :=
  { studentId := studentId
    classId := b.classId.getD ""
    sessionId := some (.oid qr._id)
    scheduleId := qr.scheduleId
    status := defaultStatus
    studentCoordinates := b.studentCoordinates
    livenessPassed := true
    faceEmbedding := none
    timestamp := now
    manualEntry := false
    markedBy := none
    synced := defaultSynced
    notes := none }

/-- The duplicate-guard query of `submitAttendance`:
`Attendance.findOne({ studentId, sessionId: qrSession._id })`. -/
def submitDupQuery (studentId : String) (qrId : Nat) (r : AttendanceRecord) : Bool :=
  decide (r.studentId = studentId ∧ r.sessionId = some (.oid qrId))

/-- The session lookup of `submitAttendance`:
`QRCodeSession.findOne({ sessionId, classId, isActive: true,
sessionExpiresAt: { $gt: new Date() } })`. -/
def sessionQuery (b : SubmitBody) (now : Nat) (q : QRCodeSession) : Bool :=
  decide (q.sessionId = b.sessionId.getD "" ∧ q.classId = b.classId.getD "" ∧
    q.isActive = true ∧ now < q.sessionExpiresAt)

/-- Embeds `submitAttendance` (src/unnamed/part_000, lines 14–115).
Returns the response and the store after the call. -/
def submitAttendance (env : Env) (store : List AttendanceRecord) (studentId : String)
    (b : SubmitBody) : ApiResponse × List AttendanceRecord :=
  if missingFields b then
    ({ status := 400, message := "Missing required attendance data.", attendance := none }, store)
  else if b.livenessPassed != some true then
    ({ status := 400, message := "Liveness check was not passed.", attendance := none }, store)
  else
    match env.users studentId with
    | none =>
      ({ status := 404, message := "Student profile not found or face is not registered."
         attendance := none }, store)
    | some student =>
      match student.faceImageS3Key with
      | none =>
        ({ status := 404, message := "Student profile not found or face is not registered."
           attendance := none }, store)
      | some refKey =>
        if env.decodeLen (b.faceImage.getD "") > 5 * 1024 * 1024 then
          ({ status := 400, message := "Image too large. Please try again with a smaller image."
             attendance := none }, store)
        else
          match env.compareFaces refKey (b.faceImage.getD "") with
          | .error m => (catchResponse m, store)
          | .ok false =>
            ({ status := 401, message := "Face recognition failed. Identity could not be verified."
               attendance := none }, store)
          | .ok true =>
            match env.qrSessions.find? (sessionQuery b env.now) with
            | none =>
              ({ status := 400, message := "This QR code is invalid or has expired."
                 attendance := none }, store)
            | some qr =>
              if store.any (submitDupQuery studentId qr._id) then
                ({ status := 409, message := "You have already marked attendance for this session."
                   attendance := none }, store)
              else
                match env.save (mkSubmitRecord studentId qr b env.now) with
                | .error m => (catchResponse m, store)
                | .ok _ =>
                  ({ status := 201, message := "Attendance marked successfully!"
                     attendance := some (mkSubmitRecord studentId qr b env.now) },
                   store ++ [mkSubmitRecord studentId qr b env.now])

/-- One offline attendance claim handed to `syncAttendance`. -/
structure SyncClaim where
  sessionId : String
  classId : String
  scheduleId : Option String
  studentCoordinates : Option Coordinates
  livenessPassed : Bool
  faceEmbedding : Option (List Int)
  timestamp : Nat
deriving DecidableEq, Repr

/-- Per-claim outcome status of the batch reconciler. -/
inductive SyncStatus where
  | success
  | skipped
deriving DecidableEq, Repr

/-- One entry of the `syncResults` array. -/
structure SyncOutcome where
  sessionId : String
  status : SyncStatus
  message : Option String
deriving DecidableEq, Repr

/-- The response of `syncAttendance`: on 200 the per-claim results, on
400/500 none. -/
structure SyncResponse where
  status : Nat
  message : String
  results : Option (List SyncOutcome)
deriving DecidableEq, Repr

/-- The duplicate check of the sync loop:
`Attendance.findOne({ studentId, sessionId })` with the raw claim
value. -/
def claimPreExists (store : List AttendanceRecord) (studentId : String) (c : SyncClaim) : Bool :=
  store.any fun r => decide (r.studentId = studentId ∧ r.sessionId = some (.raw c.sessionId))

/-- The document constructed and saved by the sync loop for a fresh
claim: `synced: true`, the claim's own captured `timestamp`, and the
raw claim session identifier in the `sessionId` field. -/
def mkSyncRecord (studentId : String) (c : SyncClaim) : AttendanceRecord :=
  { studentId := studentId
    sessionId := some (.raw c.sessionId)
    classId := c.classId
    scheduleId := c.scheduleId
    status := defaultStatus
    studentCoordinates := c.studentCoordinates
    livenessPassed := c.livenessPassed
    faceEmbedding := c.faceEmbedding
    timestamp := c.timestamp
    manualEntry := false
    markedBy := none
    synced := true
    notes := some " Synced from offline data" }

/-- The `for (const record of attendances)` loop of `syncAttendance`.
The first component is `some m` when a `save()` threw with message `m`
(control then leaves the loop for the catch block, discarding the
accumulated results); otherwise the accumulated outcomes and the store
after the loop are returned. -/
def syncLoop (env : Env) (studentId : String) :
    List SyncClaim → List AttendanceRecord → List SyncOutcome →
    Option String × List SyncOutcome × List AttendanceRecord
  | [], store, acc => (none, acc, store)
  | c :: rest, store, acc =>
    if claimPreExists store studentId c then
      syncLoop env studentId rest store
        (acc ++ [{ sessionId := c.sessionId, status := .skipped, message := some "Already exists." }])
    else
      match env.save (mkSyncRecord studentId c) with
      | .error m => (some m, acc, store)
      | .ok _ =>
        syncLoop env studentId rest (store ++ [mkSyncRecord studentId c])
          (acc ++ [{ sessionId := c.sessionId, status := .success, message := none }])

/-- Embeds `syncAttendance` (src/unnamed/part_000, lines 123–169).
`attendances = none` models a non-array payload, `some []` an empty
one; both are rejected up front.  A throw inside the loop lands in the
catch block: status 500 with only the error message, no per-claim
results, and whatever records were saved before the throw remain in
the store. -/
def syncAttendance (env : Env) (store : List AttendanceRecord) (studentId : String)
    (attendances : Option (List SyncClaim)) : SyncResponse × List AttendanceRecord :=
  match attendances with
  | none => ({ status := 400, message := "No attendance records to sync.", results := none }, store)
  | some claims =>
    if claims.isEmpty then
      ({ status := 400, message := "No attendance records to sync.", results := none }, store)
    else
      match syncLoop env studentId claims store [] with
      | (some m, _, store') => ({ status := 500, message := m, results := none }, store')
      | (none, results, store') =>
        ({ status := 200, message := "Sync completed.", results := some results }, store')

/-- The request body of `createManualAttendance`. -/
structure ManualBody where
  studentId : String
  classId : String
  scheduleId : Option String
  status : String
  timestamp : Nat
deriving DecidableEq, Repr

/-- The document constructed by `createManualAttendance`: `manualEntry`
true, `markedBy` the caller, and no `sessionId` at all (the handler
never sets one). -/
def mkManualRecord (callerId : String) (b : ManualBody) : AttendanceRecord :=
  { studentId := b.studentId
    classId := b.classId
    sessionId := none
    scheduleId := b.scheduleId
    status := b.status
    studentCoordinates := none
    livenessPassed := defaultLiveness
    faceEmbedding := none
    timestamp := b.timestamp
    manualEntry := true
    markedBy := some callerId
    synced := defaultSynced
    notes := none }

/-- Embeds `createManualAttendance` (src/unnamed/part_000, lines
544–565).  The 201 response body is the record itself. -/
def createManualAttendance (env : Env) (store : List AttendanceRecord) (callerId : String)
    (b : ManualBody) : ApiResponse × List AttendanceRecord :=
  match env.save (mkManualRecord callerId b) with
  | .error m => ({ status := 500, message := m, attendance := none }, store)
  | .ok _ =>
    ({ status := 201, message := "", attendance := some (mkManualRecord callerId b) },
     store ++ [mkManualRecord callerId b])

/-- Two-decimal rounding as performed by
`parseFloat(x.toFixed(2))`: round half up on the value scaled by
100. -/
def round2 (q : ℚ) : ℚ := (⌊q * 100 + 1 / 2⌋ : ℚ) / 100

/-- The summary object returned by the summary endpoints. -/
structure AttendanceSummary where
  totalHeldSessions : Nat
  totalAttendedSessions : Nat
  totalMissedSessions : Int
  percentage : ℚ
deriving DecidableEq, Repr

/-- The denominator of a summary: the number of distinct `sessionId`
values among records of the given classes
(`Attendance.distinct('sessionId', { classId: { $in: classIds } })`).
Documents without the field contribute no value. -/
def heldCount (store : List AttendanceRecord) (classIds : List String) : Nat :=
  (((store.filter fun r => decide (r.classId ∈ classIds)).filterMap
    (fun r => r.sessionId)).dedup).length

/-- The numerator of a summary: the student's own record count over the
given classes
(`Attendance.countDocuments({ studentId, classId: { $in: classIds } })`). -/
def attendedCount (store : List AttendanceRecord) (studentId : String)
    (classIds : List String) : Nat :=
  store.countP fun r => decide (r.studentId = studentId ∧ r.classId ∈ classIds)

/-- The summary computation shared by both summary endpoints: the
percentage is 100 when no session was held, otherwise
attended/held·100, and is reported through `toFixed(2)`. -/
def mkSummary (held attended : Nat) : AttendanceSummary :=
  { totalHeldSessions := held
    totalAttendedSessions := attended
    totalMissedSessions := (held : Int) - (attended : Int)
    percentage := round2 (if held = 0 then 100 else (attended : ℚ) / (held : ℚ) * 100) }

/-- The class ids the student is enrolled in
(`ClassEnrollment.find({ studentId }).select('classId')`). -/
def enrolledClassIds (enrollments : List Enrollment) (studentId : String) : List String :=
  (enrollments.filter fun e => decide (e.studentId = studentId)).map (fun e => e.classId)

/-- Embeds `getMyAttendanceSummary` (src/unnamed/part_000, lines
259–308).  Returns `none` when the student has no enrollment (the
handler then answers with a plain message and no summary). -/
def getMyAttendanceSummary (store : List AttendanceRecord) (enrollments : List Enrollment)
    (studentId : String) : Option AttendanceSummary :=
  if (enrolledClassIds enrollments studentId).isEmpty then none
  else some (mkSummary (heldCount store (enrolledClassIds enrollments studentId))
    (attendedCount store studentId (enrolledClassIds enrollments studentId)))

/-- Embeds `getMyClassAttendanceSummary` (src/unnamed/part_000, lines
317–360): the same computation restricted to a single class, with no
enrollment check. -/
def getMyClassAttendanceSummary (store : List AttendanceRecord) (studentId classId : String) :
    AttendanceSummary :=
  mkSummary (heldCount store [classId]) (attendedCount store studentId [classId])

/-- One row of the full attendance report produced by the aggregation
pipeline of `getFullAttendanceReport`. -/
structure ReportRow where
  studentId : String
  studentName : String
  enrollmentNo : Option String
  presentDays : Nat
  absentDays : Nat
  lateDays : Nat
  totalDays : Nat
  percentage : ℚ
deriving DecidableEq, Repr

/-- The `$match` stage of `getFullAttendanceReport`: class id, optional
timestamp bounds, optional student filter. -/
def reportMatch (classId : String) (startDate endDate : Option Nat)
    (studentIdF : Option String) (r : AttendanceRecord) : Bool :=
  decide (r.classId = classId) &&
    (startDate.all fun s => decide (s ≤ r.timestamp)) &&
    (endDate.all fun e => decide (r.timestamp ≤ e)) &&
    (studentIdF.all fun sF => decide (r.studentId = sF))

/-- The per-student row of the report pipeline: `$group` counts the
three status kinds with `$cond` sums, the first `$project` adds
`totalDays`, the second computes the percentage with the
zero-denominator `$cond` giving 0. -/
def mkReportRow (matched : List AttendanceRecord) (g : String) (u : User) : ReportRow :=
  let recs := matched.filter fun r => decide (r.studentId = g)
  let presentDays := recs.countP fun r => decide (r.status = "present")
  let absentDays := recs.countP fun r => decide (r.status = "absent")
  let lateDays := recs.countP fun r => decide (r.status = "late")
  let totalDays := presentDays + absentDays + lateDays
  { studentId := g
    studentName := u.fullName
    enrollmentNo := u.enrollmentNo
    presentDays := presentDays
    absentDays := absentDays
    lateDays := lateDays
    totalDays := totalDays
    percentage := if totalDays = 0 then 0 else (presentDays : ℚ) / (totalDays : ℚ) * 100 }

/-- Embeds `getFullAttendanceReport` (src/unnamed/part_000, lines
585–663).  `$group by '$studentId'` becomes grouping over the distinct
student ids of the matched records; the `$lookup`/`$unwind` against the
users collection drops any group without a user document. -/
def getFullAttendanceReport (store : List AttendanceRecord) (users : String → Option User)
    (classId : String) (startDate endDate : Option Nat) (studentIdF : Option String) :
    List ReportRow :=
  let matched := store.filter (reportMatch classId startDate endDate studentIdF)
  let groups := (matched.map fun r => r.studentId).dedup
  groups.filterMap fun g => (users g).map (mkReportRow matched g)

/-- A row of the records array returned by `getAttendanceByClass`
(only the fields the stats read are kept, plus the populated student
name). -/
structure TransformedRecord where
  studentName : Option String
  attendedAt : Nat
  status : String
deriving DecidableEq, Repr

/-- The stats object of `getAttendanceByClass`: `absent` is computed as
enrolled minus present (the source comments this as a simplistic
calculation), so it is an integer that can go negative. -/
structure ClassStats where
  totalEnrolled : Nat
  present : Nat
  absent : Int
deriving DecidableEq, Repr

/-- The query filter of `getAttendanceByClass`: class id, optional
timestamp bounds, and a status filter applied only when the status
parameter is truthy and not `'all'`. -/
def classQuery (classId : String) (startDate endDate : Option Nat) (statusQ : Option String)
    (r : AttendanceRecord) : Bool :=
  decide (r.classId = classId) &&
    (startDate.all fun s => decide (s ≤ r.timestamp)) &&
    (endDate.all fun e => decide (r.timestamp ≤ e)) &&
    (statusQ.all fun st => decide (st = "") || decide (st = "all") || decide (r.status = st))

/-- Embeds `getAttendanceByClass` (src/unnamed/part_000, lines
429–490): filter, sort by timestamp descending, transform, then stats
with `present` the count of returned records whose status is
`'present'` and `absent := totalEnrolled - present`. -/
def getAttendanceByClass (store : List AttendanceRecord) (enrollments : List Enrollment)
    (users : String → Option User) (classId : String) (startDate endDate : Option Nat)
    (statusQ : Option String) : List TransformedRecord × ClassStats :=
  let records := (store.filter (classQuery classId startDate endDate statusQ)).insertionSort
    (fun a b => b.timestamp ≤ a.timestamp)
  let transformed := records.map fun r =>
    { studentName := (users r.studentId).map (fun u => u.fullName)
      attendedAt := r.timestamp
      status := r.status : TransformedRecord }
  let enrolled := enrollments.filter fun e => decide (e.classId = classId)
  let present := transformed.countP fun t => decide (t.status = "present")
  (transformed,
    { totalEnrolled := enrolled.length
      present := present
      absent := (enrolled.length : Int) - (present : Int) })

/-- At most one attendance record per student and session identifier:
the system's core uniqueness invariant.  Records that carry no session
identifier (manual entries never set one) have no
`(studentId, sessionId)` pair. -/
def attendanceUnique (store : List AttendanceRecord) : Prop :=
  ∀ (sid : String) (v : SessionVal),
    store.countP (fun r => decide (r.studentId = sid ∧ r.sessionId = some v)) ≤ 1

/-- The record stores reachable from an empty store through the three
record-creating operations, each invoked with arbitrary environment
and request data. -/
inductive Reachable : List AttendanceRecord → Prop
  | init : Reachable []
  | submit (env : Env) (sid : String) (b : SubmitBody) {store : List AttendanceRecord} :
      Reachable store → Reachable (submitAttendance env store sid b).2
  | sync (env : Env) (sid : String) (claims : Option (List SyncClaim))
      {store : List AttendanceRecord} :
      Reachable store → Reachable (syncAttendance env store sid claims).2
  | manual (env : Env) (caller : String) (b : ManualBody) {store : List AttendanceRecord} :
      Reachable store → Reachable (createManualAttendance env store caller b).2

/-- A well-behaved concrete environment: one registered student, a
matching face, one active unexpired QR session, persistence always
succeeding. -/
def envOk : Env :=
  { users := fun i =>
      if i = "stu" then
        some { fullName := "Alice", enrollmentNo := some "E1", faceImageS3Key := some "key1" }
      else none
    decodeLen := fun _ => 1024
    compareFaces := fun _ _ => .ok true
    qrSessions := [{ _id := 7, sessionId := "tok1", classId := "c1", scheduleId := some "sch1",
                     isActive := true, sessionExpiresAt := 1000 }]
    save := fun _ => .ok ()
    now := 500 }

/-- A complete, valid submission body for `envOk`. -/
def bodyOk : SubmitBody :=
  { sessionId := some "tok1", classId := some "c1", studentCoordinates := some ⟨1, 2⟩,
    livenessPassed := some true, faceImage := some "img" }

/-- A submission body whose liveness flag is false but whose other
fields are all valid for `envOk`. -/
def bodyNoLive : SubmitBody :=
  { bodyOk with livenessPassed := some false }

/-- A single offline claim used in witnesses. -/
def claimA : SyncClaim :=
  { sessionId := "s1", classId := "c1", scheduleId := none, studentCoordinates := none,
    livenessPassed := true, faceEmbedding := none, timestamp := 42 }

/-- The student record used by the concrete environments. -/
def userA : User :=
  { fullName := "Alice", enrollmentNo := some "E1", faceImageS3Key := some "key1" }

/-- A concrete environment whose identity verifier throws a transient
unavailability error. -/
def envUnavail : Env :=
  { envOk with compareFaces := fun _ _ => .error "Rekognition service unavailable" }

/-- The QR session document of `envOk`. -/
def qrA : QRCodeSession :=
  { _id := 7, sessionId := "tok1", classId := "c1", scheduleId := some "sch1",
    isActive := true, sessionExpiresAt := 1000 }

/-- The outcome the batch reconciler reports for a claim, as a function
of the store at call time: skipped when a record for the raw
(studentId, sessionId) key pre-exists, success otherwise. -/
def expectedOutcome (store : List AttendanceRecord) (sid : String) (c : SyncClaim) :
    SyncOutcome :=
  if claimPreExists store sid c then
    { sessionId := c.sessionId, status := .skipped, message := some "Already exists." }
  else { sessionId := c.sessionId, status := .success, message := none }

/-- A second offline claim, distinct session identifier from
`claimA`. -/
def claimB : SyncClaim :=
  { claimA with sessionId := "s2" }

/-- An environment whose persistence layer throws exactly for the sync
record of session `s2`. -/
def envFailS2 : Env :=
  { envOk with save := fun r =>
      if r.sessionId = some (.raw "s2") then .error "document validation failed" else .ok () }

/-- A third offline claim, distinct session identifier. -/
def claimC : SyncClaim :=
  { claimA with sessionId := "s3" }

/-- One attendance record as stored for a present student of a class
session, used to build concrete stores. -/
def mkRec (sid cid : String) (n : Nat) : AttendanceRecord :=
  { studentId := sid
    classId := cid
    sessionId := some (.oid n)
    scheduleId := none
    status := "present"
    studentCoordinates := none
    livenessPassed := true
    faceEmbedding := none
    timestamp := n
    manualEntry := false
    markedBy := none
    synced := false
    notes := none }

/-- A store with 10 held sessions of class `c1`, 7 of them attended by
student `stu`. -/
def store10 : List AttendanceRecord :=
  [mkRec "stu" "c1" 1, mkRec "stu" "c1" 2, mkRec "stu" "c1" 3, mkRec "stu" "c1" 4,
   mkRec "stu" "c1" 5, mkRec "stu" "c1" 6, mkRec "stu" "c1" 7,
   mkRec "oth" "c1" 8, mkRec "oth" "c1" 9, mkRec "oth" "c1" 10]

/-- The single enrollment of student `stu` in class `c1`. -/
def enrA : List Enrollment := [{ studentId := "stu", classId := "c1" }]

/-- The summary computed over `store10`. -/
def sum10 : AttendanceSummary :=
  mkSummary (heldCount store10 ["c1"]) (attendedCount store10 "stu" ["c1"])

/-- A store and user directory for the report witnesses. -/
def storeC5 : List AttendanceRecord := [mkRec "stu" "c1" 3]

/-- User directory resolving only student `stu`. -/
def usersC5 : String → Option User := fun i => if i = "stu" then some userA else none

/-- The single report row over `storeC5`. -/
def rowC5 : ReportRow := mkReportRow storeC5 "stu" userA

/-- Two records of class `c` with status present, from two different
sessions and students. -/
def storeNeg : List AttendanceRecord := [mkRec "x" "c" 1, mkRec "y" "c" 2]

/-- A single enrollment in class `c`. -/
def enrNeg : List Enrollment := [{ studentId := "x", classId := "c" }]

/-- Appending a record whose (studentId, sessionId) key is absent from
the store preserves the uniqueness invariant. -/
theorem attendanceUnique_append {store : List AttendanceRecord} {r : AttendanceRecord}
    (h : attendanceUnique store)
    (h0 : ∀ v, r.sessionId = some v →
      store.countP (fun x => decide (x.studentId = r.studentId ∧ x.sessionId = some v)) = 0) :
    attendanceUnique (store ++ [r]) := by
  intro sid v
  rw [List.countP_append]
  by_cases hp : r.studentId = sid ∧ r.sessionId = some v
  · obtain ⟨h1, h2⟩ := hp
    subst h1
    rw [h0 v h2]
    simp [List.countP_cons, h2]
  · have hz : List.countP (fun x => decide (x.studentId = sid ∧ x.sessionId = some v)) [r] = 0 := by
      simp only [List.countP_cons, List.countP_nil]
      simp [hp]
    rw [hz]
    simpa using h sid v

/-- The store after `submitAttendance` is either unchanged, or extended
with the newly built record after its duplicate check came back
empty. -/
theorem submit_store_eq (env : Env) (store : List AttendanceRecord) (sid : String)
    (b : SubmitBody) :
    (submitAttendance env store sid b).2 = store ∨
    ∃ qr, store.any (submitDupQuery sid qr._id) = false ∧
      (submitAttendance env store sid b).2 = store ++ [mkSubmitRecord sid qr b env.now] := by
  unfold submitAttendance
  split
  · exact Or.inl rfl
  split
  · exact Or.inl rfl
  split
  · exact Or.inl rfl
  split
  · exact Or.inl rfl
  split
  · exact Or.inl rfl
  split
  · exact Or.inl rfl
  · exact Or.inl rfl
  split
  · exact Or.inl rfl
  rename_i qr hqr
  split
  · exact Or.inl rfl
  rename_i hdup
  split
  · exact Or.inl rfl
  · exact Or.inr ⟨qr, by simpa using hdup, rfl⟩

/-- `submitAttendance` preserves the uniqueness invariant: it inserts
only after `findOne({ studentId, sessionId: qrSession._id })` found
nothing. -/
theorem submit_preserves (env : Env) (store : List AttendanceRecord) (sid : String)
    (b : SubmitBody) (h : attendanceUnique store) :
    attendanceUnique (submitAttendance env store sid b).2 := by
  rcases submit_store_eq env store sid b with heq | ⟨qr, hany, heq⟩
  · rw [heq]; exact h
  · rw [heq]
    refine attendanceUnique_append h ?_
    intro v hv
    have hv' : v = SessionVal.oid qr._id := by
      simpa [mkSubmitRecord] using hv.symm
    subst hv'
    refine List.countP_eq_zero.mpr ?_
    intro x hx
    have := List.any_eq_false.mp hany x hx
    simpa [submitDupQuery, mkSubmitRecord] using this

/-- The sync loop preserves the uniqueness invariant: each insertion is
guarded by `findOne({ studentId, sessionId })` on the raw claim
value. -/
theorem syncLoop_preserves (env : Env) (sid : String) :
    ∀ (claims : List SyncClaim) (store : List AttendanceRecord) (acc : List SyncOutcome),
      attendanceUnique store → attendanceUnique (syncLoop env sid claims store acc).2.2 := by
  intro claims
  induction claims with
  | nil => intro store acc h; simpa [syncLoop] using h
  | cons c rest ih =>
    intro store acc h
    rw [syncLoop]
    split
    · exact ih store _ h
    rename_i hpre
    split
    · exact h
    · rename_i u heq
      refine ih _ _ (attendanceUnique_append h ?_)
      intro v hv
      have hv' : v = SessionVal.raw c.sessionId := by
        simpa [mkSyncRecord] using hv.symm
      subst hv'
      refine List.countP_eq_zero.mpr ?_
      intro x hx
      have hfalse : claimPreExists store sid c = false := Bool.of_not_eq_true hpre
      have := List.any_eq_false.mp hfalse x hx
      simpa [claimPreExists, mkSyncRecord] using this

/-- `syncAttendance` preserves the uniqueness invariant. -/
theorem sync_preserves (env : Env) (store : List AttendanceRecord) (sid : String)
    (claims : Option (List SyncClaim)) (h : attendanceUnique store) :
    attendanceUnique (syncAttendance env store sid claims).2 := by
  unfold syncAttendance
  split
  · exact h
  split
  · exact h
  · rename_i cs _
    have hloop := syncLoop_preserves env sid cs store [] h
    rcases hsl : syncLoop env sid cs store [] with ⟨o, res, store'⟩
    rw [hsl] at hloop
    rcases o with _ | m
    · simpa [hsl] using hloop
    · simpa [hsl] using hloop

/-- `createManualAttendance` preserves the uniqueness invariant: the
record it creates carries no session identifier at all. -/
theorem manual_preserves (env : Env) (store : List AttendanceRecord) (caller : String)
    (b : ManualBody) (h : attendanceUnique store) :
    attendanceUnique (createManualAttendance env store caller b).2 := by
  unfold createManualAttendance
  split
  · exact h
  · refine attendanceUnique_append h ?_
    intro v hv
    simp [mkManualRecord] at hv

/-- C1: every store reachable through the record-creating operations
(single submission, batch reconciliation, manual creation) holds at
most one attendance record per (studentId, sessionId) pair. -/
theorem c1_unique_per_student_session (store : List AttendanceRecord)
    (h : Reachable store) : attendanceUnique store := by
  induction h with
  | init => intro sid v; simp
  | submit env sid b _ ih => exact submit_preserves env _ sid b ih
  | sync env sid claims _ ih => exact sync_preserves env _ sid claims ih
  | manual env caller b _ ih => exact manual_preserves env _ caller b ih

/-- Witness for C1: the invariant holds of a concrete reachable store. -/
theorem c1_unique_per_student_session_witness :
    attendanceUnique (submitAttendance envOk [] "stu" bodyOk).2 :=
  c1_unique_per_student_session _ (Reachable.submit envOk "stu" bodyOk Reachable.init)

/-- The catch block never answers 201. -/
theorem catchResponse_status_ne (m : String) : (catchResponse m).status ≠ 201 := by
  unfold catchResponse
  split <;> simp

/-- The catch block never echoes an attendance document. -/
theorem catchResponse_attendance (m : String) : (catchResponse m).attendance = none := by
  unfold catchResponse
  split <;> rfl

/-- Every record present after a sync call but not before it is a sync
record built from one of the submitted claims. -/
theorem syncLoop_mem (env : Env) (sid : String) :
    ∀ (claims : List SyncClaim) (store : List AttendanceRecord) (acc : List SyncOutcome)
      (r : AttendanceRecord), r ∈ (syncLoop env sid claims store acc).2.2 →
      r ∈ store ∨ ∃ c ∈ claims, r = mkSyncRecord sid c := by
  intro claims
  induction claims with
  | nil => intro store acc r hr; exact Or.inl (by simpa [syncLoop] using hr)
  | cons c rest ih =>
    intro store acc r hr
    rw [syncLoop] at hr
    split at hr
    · rcases ih store _ r hr with h | ⟨c', hc', he⟩
      · exact Or.inl h
      · exact Or.inr ⟨c', List.mem_cons_of_mem _ hc', he⟩
    split at hr
    · exact Or.inl hr
    · rcases ih _ _ r hr with h | ⟨c', hc', he⟩
      · rcases List.mem_append.mp h with h' | h'
        · exact Or.inl h'
        · exact Or.inr ⟨c, List.mem_cons_self _ _, by simpa using h'⟩
      · exact Or.inr ⟨c', List.mem_cons_of_mem _ hc', he⟩

/-- C7: whenever `livenessPassed` is anything but `true`, the
submission is rejected with a 400 (`InvalidInput`) response — the
missing-fields 400 when other required fields are also absent, the
liveness 400 otherwise — and no record is created. -/
theorem c7_liveness_gate (env : Env) (store : List AttendanceRecord) (sid : String)
    (b : SubmitBody) (h : b.livenessPassed ≠ some true) :
    (submitAttendance env store sid b).1.status = 400 ∧
    (submitAttendance env store sid b).1.attendance = none ∧
    (submitAttendance env store sid b).2 = store := by
  unfold submitAttendance
  split
  · exact ⟨rfl, rfl, rfl⟩
  split
  · exact ⟨rfl, rfl, rfl⟩
  · rename_i h2
    exfalso
    simp only [bne_iff_ne, ne_eq, not_not] at h2
    exact h h2

/-- Witness for C7 at a concrete failing liveness flag. -/
theorem c7_liveness_gate_witness :
    bodyNoLive.livenessPassed ≠ some true ∧
    ((submitAttendance envOk [] "stu" bodyNoLive).1.status = 400 ∧
     (submitAttendance envOk [] "stu" bodyNoLive).1.attendance = none ∧
     (submitAttendance envOk [] "stu" bodyNoLive).2 = []) :=
  ⟨by decide, c7_liveness_gate envOk [] "stu" bodyNoLive (by decide)⟩

/-- C6: a successful single submission persists and returns a record
with status `present`, `manualEntry` false, `synced` false and the
server-side submission time as timestamp; every record persisted by
batch reconciliation instead has `synced` true and the claim's
originally captured timestamp. -/
theorem c6_persisted_record_fields (env : Env) (store : List AttendanceRecord) (sid : String)
    (b : SubmitBody) :
    ((submitAttendance env store sid b).1.status = 201 →
      ∃ r, (submitAttendance env store sid b).1.attendance = some r ∧
        (submitAttendance env store sid b).2 = store ++ [r] ∧
        r.status = "present" ∧ r.manualEntry = false ∧ r.synced = false ∧
        r.timestamp = env.now) ∧
    (∀ (claims : List SyncClaim) (r : AttendanceRecord),
      r ∈ (syncAttendance env store sid (some claims)).2 → r ∉ store →
      r.synced = true ∧ ∃ c ∈ claims, r.timestamp = c.timestamp) := by
  constructor
  · unfold submitAttendance
    split
    · intro h; simp at h
    split
    · intro h; simp at h
    split
    · intro h; simp at h
    split
    · intro h; simp at h
    split
    · intro h; simp at h
    split
    · intro h; exact absurd h (catchResponse_status_ne _)
    · intro h; simp at h
    split
    · intro h; simp at h
    rename_i qr hqr
    split
    · intro h; simp at h
    split
    · intro h; exact absurd h (catchResponse_status_ne _)
    · intro _
      exact ⟨mkSubmitRecord sid qr b env.now, rfl, rfl, rfl, rfl, rfl, rfl⟩
  · intro claims r hr hnot
    simp only [syncAttendance] at hr
    split at hr
    · exact absurd hr hnot
    · rcases hsl : syncLoop env sid claims store [] with ⟨o, res, store'⟩
      rw [hsl] at hr
      have hr' : r ∈ (syncLoop env sid claims store []).2.2 := by
        rw [hsl]
        rcases o with _ | m <;> simpa using hr
      rcases syncLoop_mem env sid claims store [] r hr' with h | ⟨c, hc, he⟩
      · exact absurd h hnot
      · exact ⟨by subst he; rfl, c, hc, by subst he; rfl⟩

/-- Witness for C6: concrete successful submission and a concrete
reconciled claim. -/
theorem c6_persisted_record_fields_witness :
    ((submitAttendance envOk [] "stu" bodyOk).1.status = 201 ∧
     ∃ r, (submitAttendance envOk [] "stu" bodyOk).1.attendance = some r ∧
       (submitAttendance envOk [] "stu" bodyOk).2 = [] ++ [r] ∧
       r.status = "present" ∧ r.manualEntry = false ∧ r.synced = false ∧
       r.timestamp = envOk.now) ∧
    (mkSyncRecord "stu" claimA ∈ (syncAttendance envOk [] "stu" (some [claimA])).2 ∧
     mkSyncRecord "stu" claimA ∉ ([] : List AttendanceRecord) ∧
     ((mkSyncRecord "stu" claimA).synced = true ∧
      ∃ c ∈ [claimA], (mkSyncRecord "stu" claimA).timestamp = c.timestamp)) :=
  ⟨⟨by decide, (c6_persisted_record_fields envOk [] "stu" bodyOk).1 (by decide)⟩,
   ⟨by decide, by decide,
    (c6_persisted_record_fields envOk [] "stu" bodyOk).2 [claimA] _ (by decide) (by decide)⟩⟩

/-- The catch block answers either 401 (verification marker present in
the thrown message) or 500. -/
theorem catchResponse_status_cases (m : String) :
    (catchResponse m).status = 401 ∨ (catchResponse m).status = 500 := by
  unfold catchResponse
  split
  · exact Or.inl rfl
  · exact Or.inr rfl

/-- C8: once a submission reaches the identity verifier, a non-match
answer yields the 401 `Unauthorized` response, while a thrown
transient-unavailability error (whose message, per the spec-modelled
adapter contract, is distinct from the non-match marker) is surfaced
through the catch block as a 500 — a status distinct from 401 — and in
neither case is a record created or success reported. -/
theorem c8_verifier_failure_kinds (env : Env) (store : List AttendanceRecord) (sid : String)
    (b : SubmitBody) (u : User) (refKey : String)
    (hmf : missingFields b = false)
    (hlive : b.livenessPassed = some true)
    (hu : env.users sid = some u)
    (hkey : u.faceImageS3Key = some refKey)
    (hsize : ¬ env.decodeLen (b.faceImage.getD "") > 5 * 1024 * 1024) :
    (env.compareFaces refKey (b.faceImage.getD "") = .ok false →
      (submitAttendance env store sid b).1.status = 401 ∧
      (submitAttendance env store sid b).1.attendance = none ∧
      (submitAttendance env store sid b).2 = store) ∧
    (∀ m, env.compareFaces refKey (b.faceImage.getD "") = .error m →
      strIncludes m "Face could not be verified" = false →
      (submitAttendance env store sid b).1.status = 500 ∧
      (submitAttendance env store sid b).1.status ≠ 401 ∧
      (submitAttendance env store sid b).1.status ≠ 201 ∧
      (submitAttendance env store sid b).1.attendance = none ∧
      (submitAttendance env store sid b).2 = store) := by
  constructor
  · intro hcmp
    simp [submitAttendance, hmf, hlive, hu, hkey, hsize, hcmp]
  · intro m hcmp hinc
    simp [submitAttendance, hmf, hlive, hu, hkey, hsize, hcmp, catchResponse, hinc]

/-- Witness for C8 at a concrete unavailable verifier. -/
theorem c8_verifier_failure_kinds_witness :
    missingFields bodyOk = false ∧
    bodyOk.livenessPassed = some true ∧
    envUnavail.users "stu" = some userA ∧
    userA.faceImageS3Key = some "key1" ∧
    ¬ envUnavail.decodeLen (bodyOk.faceImage.getD "") > 5 * 1024 * 1024 ∧
    ((submitAttendance envUnavail [] "stu" bodyOk).1.status = 500 ∧
     (submitAttendance envUnavail [] "stu" bodyOk).1.status ≠ 401 ∧
     (submitAttendance envUnavail [] "stu" bodyOk).1.status ≠ 201 ∧
     (submitAttendance envUnavail [] "stu" bodyOk).1.attendance = none ∧
     (submitAttendance envUnavail [] "stu" bodyOk).2 = []) :=
  ⟨by decide, by decide, by decide, by decide, by decide,
   (c8_verifier_failure_kinds envUnavail [] "stu" bodyOk userA "key1"
     (by decide) (by decide) (by decide) (by decide) (by decide)).2
     "Rekognition service unavailable" rfl (by decide)⟩

/-- C9: a successful single submission persists the matched QR
session's internal identifier in the `sessionId` field (never a raw
client string), and its duplicate check is keyed on that internal
identifier; the batch reconciler instead both checks for duplicates
and persists using the raw `sessionId` value carried by the claim. -/
theorem c9_internal_vs_raw_session_key (env : Env) (store : List AttendanceRecord)
    (sid : String) (b : SubmitBody) :
    ((submitAttendance env store sid b).1.status = 201 →
      ∃ qr r, env.qrSessions.find? (sessionQuery b env.now) = some qr ∧
        (submitAttendance env store sid b).1.attendance = some r ∧
        r.sessionId = some (.oid qr._id) ∧
        (∀ s : String, r.sessionId ≠ some (.raw s))) ∧
    (∀ qr u refKey, env.qrSessions.find? (sessionQuery b env.now) = some qr →
      missingFields b = false → b.livenessPassed = some true →
      env.users sid = some u → u.faceImageS3Key = some refKey →
      ¬ env.decodeLen (b.faceImage.getD "") > 5 * 1024 * 1024 →
      env.compareFaces refKey (b.faceImage.getD "") = .ok true →
      ((submitAttendance env store sid b).1.status = 409 ↔
        store.any (submitDupQuery sid qr._id) = true)) ∧
    (∀ c : SyncClaim,
      (claimPreExists store sid c = true →
        (syncAttendance env store sid (some [c])).1.results =
          some [{ sessionId := c.sessionId, status := .skipped, message := some "Already exists." }] ∧
        (syncAttendance env store sid (some [c])).2 = store) ∧
      (claimPreExists store sid c = false → env.save (mkSyncRecord sid c) = .ok () →
        (syncAttendance env store sid (some [c])).2 = store ++ [mkSyncRecord sid c] ∧
        (mkSyncRecord sid c).sessionId = some (.raw c.sessionId))) := by
  refine ⟨?_, ?_, ?_⟩
  · unfold submitAttendance
    split
    · intro h; simp at h
    split
    · intro h; simp at h
    split
    · intro h; simp at h
    split
    · intro h; simp at h
    split
    · intro h; simp at h
    split
    · intro h; exact absurd h (catchResponse_status_ne _)
    · intro h; simp at h
    split
    · intro h; simp at h
    rename_i qr hqr
    split
    · intro h; simp at h
    split
    · intro h; exact absurd h (catchResponse_status_ne _)
    · intro _
      exact ⟨qr, mkSubmitRecord sid qr b env.now, hqr, rfl, rfl,
        by intro s h; simp [mkSubmitRecord] at h⟩
  · intro qr u refKey hqr hmf hlive hu hkey hsize hcmp
    cases hdup : store.any (submitDupQuery sid qr._id) with
    | true => simp [submitAttendance, hmf, hlive, hu, hkey, hsize, hcmp, hqr, hdup]
    | false =>
      rcases hsave : env.save (mkSubmitRecord sid qr b env.now) with m | u'
      · have hcc := catchResponse_status_cases m
        simp [submitAttendance, hmf, hlive, hu, hkey, hsize, hcmp, hqr, hdup, hsave]
        rcases hcc with h' | h' <;> simp [h']
      · simp [submitAttendance, hmf, hlive, hu, hkey, hsize, hcmp, hqr, hdup, hsave]
  · intro c
    constructor
    · intro hpre
      simp [syncAttendance, syncLoop, hpre]
    · intro hpre hsave
      refine ⟨?_, rfl⟩
      simp [syncAttendance, syncLoop, hpre, hsave]

/-- Witness for C9 at concrete inputs for all three parts. -/
theorem c9_internal_vs_raw_session_key_witness :
    ((submitAttendance envOk [] "stu" bodyOk).1.status = 201 ∧
     (∃ qr r, envOk.qrSessions.find? (sessionQuery bodyOk envOk.now) = some qr ∧
       (submitAttendance envOk [] "stu" bodyOk).1.attendance = some r ∧
       r.sessionId = some (.oid qr._id) ∧ (∀ s : String, r.sessionId ≠ some (.raw s)))) ∧
    ((submitAttendance envOk [] "stu" bodyOk).1.status = 409 ↔
      List.any [] (submitDupQuery "stu" qrA._id) = true) ∧
    (claimPreExists [] "stu" claimA = false ∧
     envOk.save (mkSyncRecord "stu" claimA) = .ok () ∧
     ((syncAttendance envOk [] "stu" (some [claimA])).2 = [] ++ [mkSyncRecord "stu" claimA] ∧
      (mkSyncRecord "stu" claimA).sessionId = some (.raw claimA.sessionId))) :=
  ⟨⟨by decide, (c9_internal_vs_raw_session_key envOk [] "stu" bodyOk).1 (by decide)⟩,
   (c9_internal_vs_raw_session_key envOk [] "stu" bodyOk).2.1 qrA userA "key1"
     (by decide) (by decide) (by decide) (by decide) (by decide) (by decide) rfl,
   ⟨by decide, rfl,
    ((c9_internal_vs_raw_session_key envOk [] "stu" bodyOk).2.2 claimA).2 (by decide) rfl⟩⟩

/-- Counting over a mapped list counts the composed predicate. -/
theorem countP_map_list {α β : Type} (f : α → β) (p : β → Bool) :
    ∀ l : List α, (l.map f).countP p = l.countP (fun a => p (f a)) := by
  intro l
  induction l with
  | nil => rfl
  | cons a l ih => simp [List.countP_cons, ih]

/-- A predicate and its negation partition a list. -/
theorem countP_add_countP_not {α : Type} (p : α → Bool) :
    ∀ l : List α, l.countP p + l.countP (fun a => !p a) = l.length := by
  intro l
  induction l with
  | nil => rfl
  | cons a l ih => cases h : p a <;> simp [List.countP_cons, h] <;> omega

/-- Appending a sync record for a claim with a different session
identifier does not change the duplicate check of another claim. -/
theorem claimPreExists_append_ne (store : List AttendanceRecord) (sid : String)
    (c c' : SyncClaim) (h : c.sessionId ≠ c'.sessionId) :
    claimPreExists (store ++ [mkSyncRecord sid c]) sid c' = claimPreExists store sid c' := by
  unfold claimPreExists
  rw [List.any_append]
  simp [mkSyncRecord, h]

/-- When persistence always succeeds and the claims carry pairwise
distinct session identifiers, the sync loop never throws and reports
one outcome per claim, in order, decided by the store at call time. -/
theorem syncLoop_all_ok (env : Env) (sid : String) (hsave : ∀ r, env.save r = .ok ()) :
    ∀ (claims : List SyncClaim) (store : List AttendanceRecord) (acc : List SyncOutcome),
      claims.Pairwise (fun a b => a.sessionId ≠ b.sessionId) →
      (syncLoop env sid claims store acc).1 = none ∧
      (syncLoop env sid claims store acc).2.1 = acc ++ claims.map (expectedOutcome store sid) := by
  intro claims
  induction claims with
  | nil => intro store acc _; simp [syncLoop]
  | cons c rest ih =>
    intro store acc hp
    rw [List.pairwise_cons] at hp
    obtain ⟨hp1, hp2⟩ := hp
    rw [syncLoop]
    cases hpre : claimPreExists store sid c with
    | true =>
      simp only [hpre, if_true]
      obtain ⟨ha, hb⟩ := ih store
        (acc ++ [{ sessionId := c.sessionId, status := .skipped, message := some "Already exists." }])
        hp2
      refine ⟨ha, ?_⟩
      rw [hb]
      simp [expectedOutcome, hpre]
    | false =>
      simp only [hpre, if_false, Bool.false_eq_true]
      rw [hsave (mkSyncRecord sid c)]
      obtain ⟨ha, hb⟩ := ih (store ++ [mkSyncRecord sid c])
        (acc ++ [{ sessionId := c.sessionId, status := .success, message := none }]) hp2
      have hmap : rest.map (expectedOutcome (store ++ [mkSyncRecord sid c]) sid) =
          rest.map (expectedOutcome store sid) := by
        apply List.map_congr_left
        intro a ha'
        unfold expectedOutcome
        rw [claimPreExists_append_ne store sid c a (hp1 a ha')]
      refine ⟨ha, ?_⟩
      rw [hb, hmap]
      simp [expectedOutcome, hpre]

/-- C2 counterexample: two claims for the same fresh session, of which
none (M = 0) pre-exists in the (empty) store, yet the second outcome
is `skipped` rather than the claimed N − M = 2 successes: within one
batch, an earlier claim's insertion makes a later duplicate claim
skip. -/
theorem c2_counterexample_duplicate_batch :
    claimPreExists [] "stu" claimA = false ∧
    (syncAttendance envOk [] "stu" (some [claimA, claimA])).1.results =
      some [{ sessionId := "s1", status := .success, message := none },
            { sessionId := "s1", status := .skipped, message := some "Already exists." }] := by
  decide

/-- C2 (amended): when the claims carry pairwise distinct session
identifiers and persistence succeeds, a batch of N claims of which M
pre-exist yields exactly N outcomes in input order, the M pre-existing
ones skipped and the other N − M successes. -/
theorem c2_batch_outcomes (env : Env) (store : List AttendanceRecord) (sid : String)
    (claims : List SyncClaim) (hne : claims ≠ [])
    (hdist : claims.Pairwise fun a b => a.sessionId ≠ b.sessionId)
    (hsave : ∀ r, env.save r = Except.ok ()) :
    (syncAttendance env store sid (some claims)).1.status = 200 ∧
    (syncAttendance env store sid (some claims)).1.results =
      some (claims.map (expectedOutcome store sid)) ∧
    (claims.map (expectedOutcome store sid)).length = claims.length ∧
    (claims.map (expectedOutcome store sid)).countP (fun o => decide (o.status = .skipped)) =
      claims.countP (claimPreExists store sid) ∧
    (claims.map (expectedOutcome store sid)).countP (fun o => decide (o.status = .success)) =
      claims.length - claims.countP (claimPreExists store sid) := by
  obtain ⟨h1, h2⟩ := syncLoop_all_ok env sid hsave claims store [] hdist
  have hmain : (syncAttendance env store sid (some claims)).1.status = 200 ∧
      (syncAttendance env store sid (some claims)).1.results =
        some (claims.map (expectedOutcome store sid)) := by
    simp only [syncAttendance]
    rw [if_neg (by simpa using hne)]
    rcases hsl : syncLoop env sid claims store [] with ⟨o, res, store'⟩
    rw [hsl] at h1 h2
    simp only at h1 h2
    subst h1
    simp only
    rw [h2]
    refine ⟨by simp, by simp⟩
  have hskip : (claims.map (expectedOutcome store sid)).countP
      (fun o => decide (o.status = .skipped)) = claims.countP (claimPreExists store sid) := by
    rw [countP_map_list]
    congr 1
    funext c
    unfold expectedOutcome
    cases h : claimPreExists store sid c <;> simp [h]
  have hsucc : (claims.map (expectedOutcome store sid)).countP
      (fun o => decide (o.status = .success)) =
      claims.length - claims.countP (claimPreExists store sid) := by
    rw [countP_map_list]
    have heq : claims.countP (fun c => decide ((expectedOutcome store sid c).status = .success)) =
        claims.countP (fun c => !claimPreExists store sid c) := by
      congr 1
      funext c
      unfold expectedOutcome
      cases h : claimPreExists store sid c <;> simp [h]
    rw [heq]
    have := countP_add_countP_not (claimPreExists store sid) claims
    omega
  exact ⟨hmain.1, hmain.2, by simp, hskip, hsucc⟩

/-- Witness for C2 (amended): one pre-existing and one fresh claim. -/
theorem c2_batch_outcomes_witness :
    ([claimA, claimB] : List SyncClaim) ≠ [] ∧
    ([claimA, claimB].Pairwise fun a b => a.sessionId ≠ b.sessionId) ∧
    (∀ r, envOk.save r = Except.ok ()) ∧
    ((syncAttendance envOk [mkSyncRecord "stu" claimA] "stu" (some [claimA, claimB])).1.status
        = 200 ∧
     (syncAttendance envOk [mkSyncRecord "stu" claimA] "stu" (some [claimA, claimB])).1.results =
       some ([claimA, claimB].map (expectedOutcome [mkSyncRecord "stu" claimA] "stu")) ∧
     ([claimA, claimB].map (expectedOutcome [mkSyncRecord "stu" claimA] "stu")).length =
       [claimA, claimB].length ∧
     ([claimA, claimB].map (expectedOutcome [mkSyncRecord "stu" claimA] "stu")).countP
        (fun o => decide (o.status = .skipped)) =
       [claimA, claimB].countP (claimPreExists [mkSyncRecord "stu" claimA] "stu") ∧
     ([claimA, claimB].map (expectedOutcome [mkSyncRecord "stu" claimA] "stu")).countP
        (fun o => decide (o.status = .success)) =
       [claimA, claimB].length -
         [claimA, claimB].countP (claimPreExists [mkSyncRecord "stu" claimA] "stu")) :=
  ⟨by decide, by decide, fun r => rfl,
   c2_batch_outcomes envOk [mkSyncRecord "stu" claimA] "stu" [claimA, claimB]
     (by decide) (by decide) (fun r => rfl)⟩

/-- C3 divergence: with three fresh claims of which the second fails to
persist, the code answers a wholesale 500 with no per-claim results —
the first claim's record was already persisted but its success outcome
is discarded, and the third claim is never processed — while malformed
input (non-list or empty payload) is indeed rejected up front with 400
and an untouched store. -/
theorem c3_wholesale_abort_on_save_failure :
    ((syncAttendance envFailS2 [] "stu" (some [claimA, claimB, claimC])).1.status = 500 ∧
     (syncAttendance envFailS2 [] "stu" (some [claimA, claimB, claimC])).1.results = none ∧
     (syncAttendance envFailS2 [] "stu" (some [claimA, claimB, claimC])).2 =
       [mkSyncRecord "stu" claimA]) ∧
    ((syncAttendance envFailS2 [] "stu" none).1.status = 400 ∧
     (syncAttendance envFailS2 [] "stu" none).2 = [] ∧
     (syncAttendance envFailS2 [] "stu" (some [])).1.status = 400 ∧
     (syncAttendance envFailS2 [] "stu" (some [])).2 = []) := by
  decide

/-- Rounding a whole number to two decimals returns it unchanged
(needed for the zero-denominator convention). -/
theorem round2_hundred : round2 100 = 100 := by
  norm_num [round2]

/-- C4: both summary endpoints report the percentage as
attended/held·100 rounded to two decimals, report 100 when no session
was held, and report missed = held − attended; concretely, 10 held and
7 attended yield 70 with 3 missed. -/
theorem c4_summary_percentage :
    (∀ (store : List AttendanceRecord) (sid cid : String),
      (getMyClassAttendanceSummary store sid cid).percentage =
        round2 (if (getMyClassAttendanceSummary store sid cid).totalHeldSessions = 0 then 100
          else ((getMyClassAttendanceSummary store sid cid).totalAttendedSessions : ℚ) /
            ((getMyClassAttendanceSummary store sid cid).totalHeldSessions : ℚ) * 100) ∧
      ((getMyClassAttendanceSummary store sid cid).totalHeldSessions = 0 →
        (getMyClassAttendanceSummary store sid cid).percentage = 100) ∧
      (getMyClassAttendanceSummary store sid cid).totalMissedSessions =
        ((getMyClassAttendanceSummary store sid cid).totalHeldSessions : Int) -
          ((getMyClassAttendanceSummary store sid cid).totalAttendedSessions : Int)) ∧
    (∀ (store : List AttendanceRecord) (enr : List Enrollment) (sid : String)
      (s : AttendanceSummary), getMyAttendanceSummary store enr sid = some s →
      s.percentage = round2 (if s.totalHeldSessions = 0 then 100
        else (s.totalAttendedSessions : ℚ) / (s.totalHeldSessions : ℚ) * 100) ∧
      (s.totalHeldSessions = 0 → s.percentage = 100) ∧
      s.totalMissedSessions = (s.totalHeldSessions : Int) - (s.totalAttendedSessions : Int)) ∧
    getMyClassAttendanceSummary store10 "stu" "c1" =
      { totalHeldSessions := 10, totalAttendedSessions := 7, totalMissedSessions := 3,
        percentage := 70 } := by
  have hmk : ∀ held attended : Nat,
      (mkSummary held attended).percentage =
        round2 (if held = 0 then 100 else (attended : ℚ) / (held : ℚ) * 100) ∧
      (held = 0 → (mkSummary held attended).percentage = 100) ∧
      (mkSummary held attended).totalMissedSessions = (held : Int) - (attended : Int) := by
    intro held attended
    refine ⟨rfl, ?_, rfl⟩
    intro h
    subst h
    show round2 (if (0 : Nat) = 0 then (100 : ℚ) else _) = 100
    rw [if_pos rfl]
    exact round2_hundred
  refine ⟨?_, ?_, ?_⟩
  · intro store sid cid
    exact hmk (heldCount store [cid]) (attendedCount store sid [cid])
  · intro store enr sid s hs
    unfold getMyAttendanceSummary at hs
    split at hs
    · exact absurd hs (by simp)
    · have hs' := Option.some_injective _ hs
      subst hs'
      exact hmk _ _
  · have hh : heldCount store10 ["c1"] = 10 := by decide
    have ha : attendedCount store10 "stu" ["c1"] = 7 := by decide
    show mkSummary (heldCount store10 ["c1"]) (attendedCount store10 "stu" ["c1"]) = _
    rw [hh, ha]
    unfold mkSummary
    norm_num [round2]

/-- Witness for C4 at the concrete 10-held/7-attended store. -/
theorem c4_summary_percentage_witness :
    getMyAttendanceSummary store10 enrA "stu" = some sum10 ∧
    (sum10.percentage = round2 (if sum10.totalHeldSessions = 0 then 100
        else (sum10.totalAttendedSessions : ℚ) / (sum10.totalHeldSessions : ℚ) * 100) ∧
     (sum10.totalHeldSessions = 0 → sum10.percentage = 100) ∧
     sum10.totalMissedSessions =
       (sum10.totalHeldSessions : Int) - (sum10.totalAttendedSessions : Int)) :=
  ⟨rfl, c4_summary_percentage.2.1 store10 enrA "stu" sum10 rfl⟩

/-- C5: every row of the full attendance report satisfies
totalDays = present + absent + late, and its percentage is
present/totalDays·100 with the zero-denominator convention giving 0,
not 100. -/
theorem c5_report_row_totals (store : List AttendanceRecord) (users : String → Option User)
    (classId : String) (startDate endDate : Option Nat) (studentIdF : Option String) :
    ∀ row ∈ getFullAttendanceReport store users classId startDate endDate studentIdF,
      row.totalDays = row.presentDays + row.absentDays + row.lateDays ∧
      row.percentage = (if row.totalDays = 0 then (0 : ℚ)
        else (row.presentDays : ℚ) / (row.totalDays : ℚ) * 100) := by
  intro row hrow
  unfold getFullAttendanceReport at hrow
  rcases List.mem_filterMap.mp hrow with ⟨g, hg, heq⟩
  rcases Option.map_eq_some'.mp heq with ⟨u, hu, hrow'⟩
  subst hrow'
  exact ⟨rfl, rfl⟩

/-- Witness for C5 at a concrete one-row report. -/
theorem c5_report_row_totals_witness :
    rowC5 ∈ getFullAttendanceReport storeC5 usersC5 "c1" none none none ∧
    (rowC5.totalDays = rowC5.presentDays + rowC5.absentDays + rowC5.lateDays ∧
     rowC5.percentage = (if rowC5.totalDays = 0 then (0 : ℚ)
       else (rowC5.presentDays : ℚ) / (rowC5.totalDays : ℚ) * 100)) :=
  ⟨List.mem_filterMap.mpr ⟨"stu", by decide, rfl⟩,
   c5_report_row_totals storeC5 usersC5 "c1" none none none rowC5
     (List.mem_filterMap.mpr ⟨"stu", by decide, rfl⟩)⟩

/-- C10: the class attendance stats always satisfy
absent = totalEnrolled − present where present counts exactly the
returned records whose status is `present` (records with status
`absent` or `late` contribute nothing), hence present + absent =
totalEnrolled; with two present records and one enrolled student the
absent figure is the negative −1. -/
theorem c10_class_stats (store : List AttendanceRecord) (enrollments : List Enrollment)
    (users : String → Option User) (classId : String) (startDate endDate : Option Nat)
    (statusQ : Option String) :
    ((getAttendanceByClass store enrollments users classId startDate endDate statusQ).2.absent =
      ((getAttendanceByClass store enrollments users classId startDate endDate
          statusQ).2.totalEnrolled : Int) -
        ((getAttendanceByClass store enrollments users classId startDate endDate
          statusQ).2.present : Int) ∧
     ((getAttendanceByClass store enrollments users classId startDate endDate
          statusQ).2.present : Int) +
        (getAttendanceByClass store enrollments users classId startDate endDate statusQ).2.absent =
       ((getAttendanceByClass store enrollments users classId startDate endDate
          statusQ).2.totalEnrolled : Int) ∧
     (getAttendanceByClass store enrollments users classId startDate endDate statusQ).2.present =
       (getAttendanceByClass store enrollments users classId startDate endDate
          statusQ).1.countP (fun t => decide (t.status = "present"))) ∧
    (getAttendanceByClass storeNeg enrNeg usersC5 "c" none none none).2.absent = -1 := by
  constructor
  · refine ⟨rfl, ?_, rfl⟩
    simp only [getAttendanceByClass]
    omega
  · decide
